import Mathlib

/-!
Verification of the SmartFrame canvas-extraction core.

This file gives a shallow embedding of the two core source files of the
repository and proves the specified properties about them:

* `src/server/utils/page-activation-scheduler.ts` — the `PageActivationScheduler`
  class (page pool with busy flags, background rotation, acquire/release).
* `src/server/utils/smartframe-extension/canvas-extractor.ts` — the
  `SmartFrameCanvasExtractor` class (`extractCanvasImage`, `embedExifMetadata`,
  the timeout/extension error classes).

Effectful JS code is embedded as pure functions over an explicit environment
(`ExtractEnv`) describing the behaviour of the browser page, the filesystem
and the subprocesses, together with an explicit list of the files present on
disk.  Time is modelled by nonnegative millisecond increments supplied by the
environment; each sleep of `d` ms contributes at least `d` to the elapsed time.
-/

/-! ### Page activation scheduler (`page-activation-scheduler.ts`) -/

/-- Observable page interactions performed by the scheduler.  `bringToFront i`
models `this.pages[i].page.bringToFront()`, `mouseMove i` models
`this.pages[i].page.mouse.move(x, y)` (the coordinates are irrelevant to every
property, so they are not tracked). -/
inductive PageAction where
  | bringToFront (i : Nat)
  | mouseMove (i : Nat)
deriving DecidableEq, Repr

/-- The mutable state of a `PageActivationScheduler`: one entry of `busy` and
`lastActivated` per `PageState` in `this.pages` (the opaque Puppeteer handles
are identified with their indices), plus `currentActiveIndex` and the
`shuttingDown` flag. -/
structure SchedState where
  busy : List Bool
  lastActivated : List Nat
  currentActiveIndex : Nat
  shuttingDown : Bool
deriving DecidableEq, Repr

/-- `Array.prototype.findIndex(p => !p.busy)` specialised to the busy list:
index of the first slot whose busy flag is `false`. -/
def findFreeIdx : List Bool → Option Nat
  | [] => none
  | b :: rest => if b then (findFreeIdx rest).map (· + 1) else some 0

/-- One tick of `rotateActivePage` (lines 75-104).  When `shuttingDown` is set
the method returns before touching any page.  Otherwise it advances
`currentActiveIndex`, stamps `lastActivated` on the indexed slot (`Date.now()`
is the `now` argument) and attempts an optional mouse move (whose failure the
source swallows); it never calls `bringToFront`.  The second component lists
the page interactions performed. -/
def rotateActivePage (s : SchedState) (now : Nat) : SchedState × List PageAction :=
  if s.shuttingDown then (s, [])
  else
    let idx := (s.currentActiveIndex + 1) % s.busy.length
    let s' := { s with currentActiveIndex := idx, lastActivated := s.lastActivated.set idx now }
    -- the source re-checks `shuttingDown` before the mouse move (line 92);
    -- within one synchronous tick the flag cannot have changed
    if s.shuttingDown then (s', []) else (s', [PageAction.mouseMove idx])

/-- The successful-scan step of `acquirePage` (lines 119-158): return `none`
when `shuttingDown` is set (shutdown fails fast) or no slot is free (the
source then sleeps and rescans); otherwise mark the first free slot busy,
bring its page to the front and stamp `lastActivated`, returning the granted
index and the interactions performed. -/
def tryAcquire (s : SchedState) (now : Nat) : Option (Nat × SchedState × List PageAction) :=
  if s.shuttingDown then none
  else
    match findFreeIdx s.busy with
    | none => none
    | some i =>
        some (i,
          { s with busy := s.busy.set i true, lastActivated := s.lastActivated.set i now },
          [PageAction.bringToFront i])

/-- The `release` callback returned by `acquirePage` (lines 145-155): clear the
busy flag of the captured index.  `List.set` is a no-op out of range, exactly
like the source guard `if (this.pages[availableIndex])`. -/
def releaseSlot (s : SchedState) (i : Nat) : SchedState :=
  { s with busy := s.busy.set i false }

/-- Scheduler state together with the multiset of slot indices currently held
by in-flight acquisitions (each successful `acquirePage` call holds its index
until its `release` callback runs). -/
structure PoolSys where
  sched : SchedState
  holders : List Nat
deriving DecidableEq, Repr

/-- Events in an interleaved execution of the pool: an `acquirePage` scan, a
holder running its `release` callback, a rotation tick, and `cleanup` setting
the shutdown flag. -/
inductive PoolEvent where
  | acquire (now : Nat)
  | release (i : Nat)
  | rotate (now : Nat)
  | shutdown
deriving DecidableEq, Repr

/-- Effect of one event on the pool.  A failed acquire leaves the state
unchanged (the caller keeps polling or gives up); `release i` is only issued
by the holder of slot `i`. -/
def poolStep (sys : PoolSys) (e : PoolEvent) : PoolSys :=
  match e with
  | .acquire now =>
      match tryAcquire sys.sched now with
      | some (i, s', _) => ⟨s', i :: sys.holders⟩
      | none => sys
  | .release i =>
      if i ∈ sys.holders then ⟨releaseSlot sys.sched i, sys.holders.erase i⟩ else sys
  | .rotate now => ⟨(rotateActivePage sys.sched now).1, sys.holders⟩
  | .shutdown => ⟨{ sys.sched with shuttingDown := true }, sys.holders⟩

/-- The pool as built by the constructor (lines 32-40) over `n` pages: every
slot free, `lastActivated` zeroed, no holders. -/
def initPool (n : Nat) : PoolSys :=
  ⟨⟨List.replicate n false, List.replicate n 0, 0, false⟩, []⟩

/-- Run a sequence of pool events from the freshly constructed pool. -/
def runPool (n : Nat) (es : List PoolEvent) : PoolSys :=
  es.foldl poolStep (initPool n)

/-- The pool invariant: the slot count is fixed, the held indices are
pairwise distinct, every held index has its busy flag set, and the number of
busy flags equals the number of holders. -/
def PoolInv (n : Nat) (sys : PoolSys) : Prop :=
  sys.sched.busy.length = n ∧
  sys.holders.Nodup ∧
  (∀ i ∈ sys.holders, sys.sched.busy[i]? = some true) ∧
  sys.sched.busy.count true = sys.holders.length

/-! ### Canvas extractor (`canvas-extractor.ts`) -/

/-- The `ImageMetadata` interface (lines 10-18), field for field. -/
structure ImageMetadata where
  titleField : Option String
  subjectField : Option String
  tags : Option String
  comments : Option String
  authors : Option String
  dateTaken : Option String
  copyright : Option String
deriving DecidableEq, Repr

/-- The errors `extractCanvasImage` can raise: `CanvasTimeoutError`
(lines 23-36), `CanvasExtensionError` (lines 41-50), and any other thrown
value (rejected Puppeteer/fs/sharp promises), carried as `js`. -/
inductive ExtractErr where
  | timeout (imageId : String) (elapsedMs maxWaitMs : Nat) (lastKnownError : Option String)
  | extensionErr (imageId : String) (extensionError : String) (elapsedMs : Nat)
  | js (msg : String)
deriving DecidableEq, Repr

/-- The `smartframe` section of `scraper.config.json` as the extractor reads
it; every field is optional (`this.config?.smartframe?...`). -/
structure SmartframeConfig where
  initialRenderWaitMs : Option Nat
  postResizeWaitMs : Option Nat
  maxRenderWaitMs : Option Nat
  jpgQualityFull : Option Nat
  jpgQualityThumbnail : Option Nat
  minValidFileSize : Option Nat
  minValidDimensions : Option Nat
deriving DecidableEq, Repr

/-- The configuration with every field absent (all defaults apply). -/
def cfgDefault : SmartframeConfig := ⟨none, none, none, none, none, none, none⟩

/-- JS `x || d` on an optional numeric config value: a missing field and the
(falsy) value `0` both yield the default. -/
def orDefault (v : Option Nat) (d : Nat) : Nat :=
  match v with
  | some n => if n = 0 then d else n
  | none => d

/-- JS truthiness of a nullable string attribute value: `null` and `""` are
falsy, everything else passes through. -/
def truthyStr (o : Option String) : Option String :=
  match o with
  | some s => if s = "" then none else some s
  | none => none

/-- Character-list prefix test, the meaning of `String.prototype.startsWith`. -/
def charsPrefix : List Char → List Char → Bool
  | [], _ => true
  | _ :: _, [] => false
  | c :: cs, d :: ds => c == d && charsPrefix cs ds

/-- `s.startsWith(pre)` on the underlying character lists. -/
def strStartsWith (s pre : String) : Bool :=
  charsPrefix pre.data s.data

/-- The test `!imageDataUrl || !imageDataUrl.startsWith('data:image/png;base64,')`
(line 324), as the condition for a *valid* data URL. -/
def dataUrlValid : Option String → Bool
  | none => false
  | some u => !(u == "") && strStartsWith u "data:image/png;base64,"

/-- `viewportMode` (`'full' | 'thumbnail'`). -/
inductive ViewportMode where
  | full
  | thumbnail
deriving DecidableEq, Repr

/-- The string literal of a viewport mode. -/
def ViewportMode.str : ViewportMode → String
  | .full => "full"
  | .thumbnail => "thumbnail"

/-- `imageId.replace(/[^a-zA-Z0-9.\-_]/g, '-')` (line 334). -/
def sanitizeId (s : String) : String :=
  s.map fun c => if c.isAlphanum || c == '.' || c == '-' || c == '_' then c else '-'

/-- Path of the intermediate PNG, `path.join(outputDir, pngFilename)`
(lines 335-336); `path.join` is modelled as `/`-concatenation. -/
def pngPathOf (outputDir imageId : String) (mode : ViewportMode) : String :=
  outputDir ++ "/" ++ sanitizeId imageId ++ "_canvas_" ++ mode.str ++ ".png"

/-- Path of the final JPG, `path.join(outputDir, jpgFilename)` (lines 346-347). -/
def jpgPathOf (outputDir imageId : String) (mode : ViewportMode) : String :=
  outputDir ++ "/" ++ sanitizeId imageId ++ "_canvas_" ++ mode.str ++ ".jpg"

/-- Disk contents as the list of existing file paths; a write is idempotent on
existence, a delete removes the path. -/
def addFile (p : String) (fs : List String) : List String :=
  if p ∈ fs then fs else p :: fs

/-- `fs.unlinkSync p`. -/
def rmFile (p : String) (fs : List String) : List String :=
  fs.erase p

/-- Outcome of the spawned `exiftool` subprocess: the `close` event with an
exit code, or the `error` (spawn failure) event. -/
inductive SpawnOutcome where
  | exited (code : Int)
  | spawnError (msg : String)
deriving DecidableEq, Repr

/-- How `embedExifMetadata`'s promise settles for each subprocess outcome
(lines 171-190 of the source): code 0 resolves, a non-zero code resolves
("Don't reject - we still have the image"), and a spawn error also resolves. -/
def embedExifResolution : SpawnOutcome → Except ExtractErr Unit
  | .exited code => if code = 0 then .ok () else .ok ()
  | .spawnError _ => .ok ()

/-! #### exiftool argument construction (`embedExifMetadata`, lines 76-158) -/

/-- Consume exactly `n` leading decimal digits (the regex `\d{n}`). -/
def takeDigits : Nat → List Char → Option (List Char × List Char)
  | 0, cs => some ([], cs)
  | _ + 1, [] => none
  | n + 1, c :: cs =>
      if c.isDigit then (takeDigits n cs).map (fun p => (c :: p.1, p.2)) else none

/-- The six captured groups of the date regex (line 120), with the
destructuring defaults `hours = '00'`, `minutes = '00'`, `seconds = '00'`
(line 123) already applied. -/
structure DateGroups where
  year : String
  month : String
  day : String
  hours : String
  minutes : String
  seconds : String
deriving DecidableEq, Repr

/-- The optional time part `(?:[T ](\d{2}):(\d{2})(?::(\d{2}))?(?:\.\d+)?
(?:[+-]\d{2}:\d{2}|Z)?)?` of the regex.  The fractional-second and zone groups
are non-capturing, optional, and final, so they can never affect the captures;
only the `[T ]HH:MM` core and the optional `:SS` are parsed. -/
def parseTimePart (cs : List Char) : Option (String × String × String) :=
  match cs with
  | [] => none
  | c :: r =>
      if c == 'T' || c == ' ' then
        match takeDigits 2 r with
        | none => none
        | some (hh, r1) =>
            match r1 with
            | ':' :: r2 =>
                match takeDigits 2 r2 with
                | none => none
                | some (mm, r3) =>
                    match r3 with
                    | ':' :: r4 =>
                        match takeDigits 2 r4 with
                        | some (ss, _) => some (String.mk hh, String.mk mm, String.mk ss)
                        | none => some (String.mk hh, String.mk mm, "00")
                    | _ => some (String.mk hh, String.mk mm, "00")
            | _ => none
      else none

/-- `metadata.dateTaken.match(/^(\d{4})-(\d{2})-(\d{2})(?:...)?/)` (line 120):
the anchored match of the ISO-like pattern, returning the captured groups with
their destructuring defaults.  Trailing text after the matched portion is
ignored, exactly as with an unanchored-at-the-end regex. -/
def parseIsoDate (s : String) : Option DateGroups :=
  match takeDigits 4 s.data with
  | none => none
  | some (y, r1) =>
      match r1 with
      | '-' :: r2 =>
          match takeDigits 2 r2 with
          | none => none
          | some (mo, r3) =>
              match r3 with
              | '-' :: r4 =>
                  match takeDigits 2 r4 with
                  | none => none
                  | some (d, r5) =>
                      match parseTimePart r5 with
                      | some (hh, mm, ss) =>
                          some ⟨String.mk y, String.mk mo, String.mk d, hh, mm, ss⟩
                      | none =>
                          some ⟨String.mk y, String.mk mo, String.mk d, "00", "00", "00"⟩
              | _ => none
      | _ => none

/-- `` `${year}:${month}:${day} ${hours}:${minutes}:${seconds}` `` (line 126):
the fixed EXIF reformatting, purely textual, with no time-zone input at all. -/
def exifDateOf (g : DateGroups) : String :=
  g.year ++ ":" ++ g.month ++ ":" ++ g.day ++ " " ++ g.hours ++ ":" ++ g.minutes ++ ":" ++ g.seconds

/-- The date arguments pushed for `metadata.dateTaken` (lines 122-133): on a
regex match, the two primary EXIF date tags get the reformatted value and
`XMP:DateCreated` gets the original string verbatim; on no match the date is
skipped (a warning is logged) and no argument is pushed. -/
def dateArgsOf (dateTaken : String) : List String :=
  match parseIsoDate dateTaken with
  | some g =>
      ["-EXIF:DateTimeOriginal=" ++ exifDateOf g,
       "-EXIF:CreateDate=" ++ exifDateOf g,
       "-XMP:DateCreated=" ++ dateTaken]
  | none => []

/-- `String.prototype.split(',')`: cut the character list at every comma. -/
def splitCommasAux (acc : List Char) : List Char → List (List Char)
  | [] => [acc.reverse]
  | c :: cs =>
      if c = ',' then acc.reverse :: splitCommasAux [] cs
      else splitCommasAux (c :: acc) cs

/-- `tags.split(',')` as a list of strings. -/
def splitCommas (s : String) : List String :=
  (splitCommasAux [] s.data).map String.mk

/-- `String.prototype.trim`: strip whitespace from both ends. -/
def strTrim (s : String) : String :=
  String.mk (((s.data.dropWhile Char.isWhitespace).reverse.dropWhile
    Char.isWhitespace).reverse)

/-- `metadata.tags.split(',').map(t => t.trim()).filter(t => t)` (line 142). -/
def tagTokens (tags : String) : List String :=
  ((splitCommas tags).map strTrim).filter (fun t => t ≠ "")

/-- The full `args` array handed to `spawn('exiftool', args)` (lines 78-152),
in source order: `-overwrite_original`, then the title, subject, comments,
authors, copyright, date and tags blocks (each guarded by JS truthiness of its
field), and finally the target path. -/
def buildExiftoolArgs (md : ImageMetadata) (jpgPath : String) : List String :=
  ["-overwrite_original"]
  ++ (match md.titleField with
      | some t => if t == "" then [] else
          ["-IPTC:ObjectName=" ++ t, "-XMP:Title=" ++ t, "-IPTC:Headline=" ++ t]
      | none => [])
  ++ (match md.subjectField with
      | some v => if v == "" then [] else
          ["-XMP:PersonInImage=" ++ v, "-IPTC:SubjectReference=" ++ v]
      | none => [])
  ++ (match md.comments with
      | some v => if v == "" then [] else
          ["-IPTC:Caption-Abstract=" ++ v, "-XMP:Description=" ++ v,
           "-EXIF:ImageDescription=" ++ v]
      | none => [])
  ++ (match md.authors with
      | some v => if v == "" then [] else
          ["-IPTC:By-line=" ++ v, "-XMP:Creator=" ++ v, "-EXIF:Artist=" ++ v]
      | none => [])
  ++ (match md.copyright with
      | some v => if v == "" then [] else
          ["-IPTC:CopyrightNotice=" ++ v, "-XMP:Rights=" ++ v, "-EXIF:Copyright=" ++ v]
      | none => [])
  ++ (match md.dateTaken with
      | some v => if v == "" then [] else dateArgsOf v
      | none => [])
  ++ (match md.tags with
      | some v => if v == "" then [] else
          let tagList := tagTokens v
          if tagList.length > 0 then
            tagList.flatMap (fun tag => ["-IPTC:Keywords+=" ++ tag, "-XMP:Subject+=" ++ tag])
          else []
      | none => [])
  ++ [jpgPath]

/-- A metadata record carrying only a `dateTaken` value. -/
def mdDateOnly (s : String) : ImageMetadata :=
  ⟨none, none, none, none, none, some s, none⟩

/-- A metadata record carrying only a `tags` value. -/
def mdTagsOnly (s : String) : ImageMetadata :=
  ⟨none, none, some s, none, none, none, none⟩

/-! #### The extraction pipeline (`extractCanvasImage`, lines 219-412) -/

/-- The behaviour of the page, filesystem, image library and subprocess during
one `extractCanvasImage` call.  Durations are in milliseconds; every `...Dt`
field is the extra time that passes during the corresponding segment of the
call, on top of the explicit sleeps. -/
structure ExtractEnv where
  /-- `page.bringToFront()` (line 230): `some msg` means the promise rejects. -/
  bringToFrontErr : Option String
  /-- whether a capture-signal element with a `data-url` or `data-error`
  attribute exists at the `i`-th poll check (line 261). -/
  hasResponse : Nat → Bool
  /-- time from `startTime` (line 252) to the first loop-condition check. -/
  preLoopDt : Nat
  /-- extra time consumed by iteration `i` beyond its backoff sleep. -/
  pollExtraDt : Nat → Nat
  /-- the `data-error` attribute as re-read on the timeout path (line 291);
  `none` also models the swallowed `$eval` rejection (`.catch(() => null)`). -/
  timeoutErrorAttr : Option String
  /-- time between loop exit and the timeout `elapsedMs` sample (line 296). -/
  postLoopDt : Nat
  /-- the `data-url` attribute (line 308). -/
  dataUrlAttr : Option String
  /-- the `data-error` attribute (line 312). -/
  dataErrorAttr : Option String
  /-- time between loop exit and the `elapsedMs` sample of line 317. -/
  postReadDt : Nat
  /-- `fs.writeFileSync` on the PNG (line 338): `some msg` means it throws. -/
  writePngErr : Option String
  /-- `sharp(...).jpeg(...).toFile(jpgPath)` (lines 350-352): `some msg`
  means the transcode rejects (and no JPG is produced). -/
  transcodeErr : Option String
  /-- `fs.statSync(jpgPath).size` (lines 364-365). -/
  fileSize : Nat
  /-- `(await sharp(jpgPath).metadata()).width` (line 381); `none` models
  `undefined`, which `|| 0` turns into `0`. -/
  imgWidth : Option Nat
  /-- `(await sharp(jpgPath).metadata()).height` (line 382). -/
  imgHeight : Option Nat
  /-- extra time before the size-validation `Date.now()` sample (line 375). -/
  sizeCheckDt : Nat
  /-- extra time before the dimension-validation sample (line 392). -/
  dimCheckDt : Nat
  /-- outcome of the spawned `exiftool` subprocess. -/
  exiftool : SpawnOutcome

/-- `Math.min(100 * Math.pow(2, attempt), 2000)` (line 273). -/
def pollDelay (attempt : Nat) : Nat :=
  min (100 * 2 ^ attempt) 2000

/-- The polling loop of lines 259-287.  Each iteration checks
`Date.now() - startTime < maxWaitMs`, queries the signal element, and on
absence sleeps the exponential-backoff delay (so at least `pollDelay attempt`
milliseconds pass) before retrying.  The result is
`(canvasReady, elapsed at loop exit, attempt counter)`.  `fuel` bounds the
number of iterations; since every iteration advances `elapsed` by at least
100 ms, `fuel := maxWait` always suffices (once `fuel + elapsed ≥ maxWait`
holds, fuel can only run out with `elapsed ≥ maxWait`, where the exhaustion
result coincides with the loop-exit result).  The periodic mouse move of
lines 278-286 touches no tracked state and its failures are swallowed. -/
def pollLoop (hasResp : Nat → Bool) (extraDt : Nat → Nat) (maxWait : Nat) :
    Nat → Nat → Nat → Bool × Nat × Nat
  | 0, elapsed, attempt => (false, elapsed, attempt)
  | fuel + 1, elapsed, attempt =>
      if elapsed < maxWait then
        if hasResp attempt then (true, elapsed, attempt)
        else
          pollLoop hasResp extraDt maxWait fuel
            (elapsed + pollDelay attempt + extraDt attempt) (attempt + 1)
      else (false, elapsed, attempt)

/-- The effective `maxWaitMs` (line 250). -/
def effMaxWait (cfg : SmartframeConfig) : Nat :=
  orDefault cfg.maxRenderWaitMs 30000

/-- The poll loop as `extractCanvasImage` runs it: starting `preLoopDt` ms
after `startTime`, attempt 0, fuel `effMaxWait cfg`. -/
def pollResult (cfg : SmartframeConfig) (env : ExtractEnv) : Bool × Nat × Nat :=
  pollLoop env.hasResponse env.pollExtraDt (effMaxWait cfg) (effMaxWait cfg) env.preLoopDt 0

/-- Lines 307-407: the tail of `extractCanvasImage` once the signal element is
present — attribute reads, the error-wins tie-break, the payload-prefix check,
PNG write, JPG transcode, PNG deletion, the two validations (each deleting the
JPG on failure), and optional metadata embedding.  `elapsedAtReady` is the
loop-exit elapsed time; the filesystem is threaded explicitly. -/
def extractTail (cfg : SmartframeConfig) (env : ExtractEnv) (imageId outputDir : String)
    (mode : ViewportMode) (md : Option ImageMetadata) (elapsedAtReady : Nat)
    (fs0 : List String) : Except ExtractErr String × List String :=
  match truthyStr env.dataErrorAttr with
  | some e => (.error (.extensionErr imageId e (elapsedAtReady + env.postReadDt)), fs0)
  | none =>
    if dataUrlValid env.dataUrlAttr then
      match env.writePngErr with
      | some m => (.error (.js m), fs0)
      | none =>
        match env.transcodeErr with
        | some m => (.error (.js m), addFile (pngPathOf outputDir imageId mode) fs0)
        | none =>
          -- after `sharp(...).toFile` the intermediate PNG is deleted (line 355);
          -- fs after that point is
          -- `rmFile png (addFile jpg (addFile png fs0))`
          if env.fileSize < orDefault cfg.minValidFileSize 51200 then
            (.error (.extensionErr imageId
                ("File validation failed: size " ++ toString env.fileSize ++
                 " bytes is below minimum " ++
                 toString (orDefault cfg.minValidFileSize 51200) ++ " bytes")
                (elapsedAtReady + env.postReadDt + env.sizeCheckDt)),
             rmFile (jpgPathOf outputDir imageId mode)
               (rmFile (pngPathOf outputDir imageId mode)
                 (addFile (jpgPathOf outputDir imageId mode)
                   (addFile (pngPathOf outputDir imageId mode) fs0))))
          else
            if env.imgWidth.getD 0 < orDefault cfg.minValidDimensions 500 ∨
               env.imgHeight.getD 0 < orDefault cfg.minValidDimensions 500 then
              (.error (.extensionErr imageId
                  ("File validation failed: dimensions " ++ toString (env.imgWidth.getD 0) ++
                   "x" ++ toString (env.imgHeight.getD 0) ++ " are below minimum " ++
                   toString (orDefault cfg.minValidDimensions 500) ++ "px")
                  (elapsedAtReady + env.postReadDt + env.sizeCheckDt + env.dimCheckDt)),
               rmFile (jpgPathOf outputDir imageId mode)
                 (rmFile (pngPathOf outputDir imageId mode)
                   (addFile (jpgPathOf outputDir imageId mode)
                     (addFile (pngPathOf outputDir imageId mode) fs0))))
            else
              -- the exiftool invocation receives `buildExiftoolArgs md jpgPath`;
              -- its outcome settles the promise per `embedExifResolution`
              match md with
              | some _ =>
                  match embedExifResolution env.exiftool with
                  | .ok _ =>
                      (.ok (jpgPathOf outputDir imageId mode),
                       rmFile (pngPathOf outputDir imageId mode)
                         (addFile (jpgPathOf outputDir imageId mode)
                           (addFile (pngPathOf outputDir imageId mode) fs0)))
                  | .error e =>
                      (.error e,
                       rmFile (pngPathOf outputDir imageId mode)
                         (addFile (jpgPathOf outputDir imageId mode)
                           (addFile (pngPathOf outputDir imageId mode) fs0)))
              | none =>
                  (.ok (jpgPathOf outputDir imageId mode),
                   rmFile (pngPathOf outputDir imageId mode)
                     (addFile (jpgPathOf outputDir imageId mode)
                       (addFile (pngPathOf outputDir imageId mode) fs0)))
    else
      (.error (.extensionErr imageId "No valid canvas data URL received"
          (elapsedAtReady + env.postReadDt)), fs0)

/-- The body of the `try` block of `extractCanvasImage` (lines 228-407):
bring the page to the front, sleep the two stabilization waits (pure time),
run the polling loop, raise `CanvasTimeoutError` if no signal appeared
(re-reading the error attribute once more), and otherwise run the tail. -/
def extractBody (cfg : SmartframeConfig) (env : ExtractEnv) (imageId outputDir : String)
    (mode : ViewportMode) (md : Option ImageMetadata) (fs0 : List String) :
    Except ExtractErr String × List String :=
  match env.bringToFrontErr with
  | some m => (.error (.js m), fs0)
  | none =>
      if (pollResult cfg env).1 then
        extractTail cfg env imageId outputDir mode md (pollResult cfg env).2.1 fs0
      else
        (.error (.timeout imageId ((pollResult cfg env).2.1 + env.postLoopDt)
            (effMaxWait cfg) (truthyStr env.timeoutErrorAttr)), fs0)

/-- `extractCanvasImage` itself: the whole body runs inside one `try`, and the
outermost `catch` (lines 408-411) logs any raised failure and returns `null`;
a successful run returns `jpgPath` (line 407). -/
def extractCanvasImage (cfg : SmartframeConfig) (env : ExtractEnv) (imageId outputDir : String)
    (mode : ViewportMode) (md : Option ImageMetadata) (fs0 : List String) :
    Option String × List String :=
  match extractBody cfg env imageId outputDir mode md fs0 with
  | (.ok p, fsFinal) => (some p, fsFinal)
  | (.error _, fsFinal) => (none, fsFinal)

/-! #### Concrete environments used by the witnesses -/

/-- A run in which the hook reports an error on the first poll. -/
def envSignalErr : ExtractEnv :=
  { bringToFrontErr := none
    hasResponse := fun _ => true
    preLoopDt := 0
    pollExtraDt := fun _ => 0
    timeoutErrorAttr := none
    postLoopDt := 0
    dataUrlAttr := some "data:image/png;base64,AAAA"
    dataErrorAttr := some "render failed"
    postReadDt := 0
    writePngErr := none
    transcodeErr := none
    fileSize := 100000
    imgWidth := some 600
    imgHeight := some 600
    sizeCheckDt := 0
    dimCheckDt := 0
    exiftool := .exited 0 }

/-- A run in which no signal ever appears. -/
def envNoSignal : ExtractEnv :=
  { envSignalErr with hasResponse := fun _ => false, dataErrorAttr := none }

/-- A configuration with `maxRenderWaitMs` set to 200. -/
def cfgShortWait : SmartframeConfig :=
  { cfgDefault with maxRenderWaitMs := some 200 }

/-- A fully successful run whose `exiftool` subprocess exits non-zero. -/
def envHappy : ExtractEnv :=
  { envSignalErr with dataErrorAttr := none, exiftool := .exited 1 }

/-- A successful capture whose final JPG is below the size threshold. -/
def envSmallFile : ExtractEnv :=
  { envHappy with fileSize := 10 }

/-- A successful capture whose JPG transcode rejects. -/
def envTranscodeFail : ExtractEnv :=
  { envHappy with transcodeErr := some "sharp failed" }

/-- Sample metadata for the happy-path witness. -/
def mdSample : ImageMetadata :=
  ⟨some "title", none, some "a, b ,b,", none, none, some "2016-07-18T14:30:00", none⟩

/-! ### Lemmas about the scheduler -/

theorem findFreeIdx_some : ∀ {l : List Bool} {i : Nat},
    findFreeIdx l = some i → l[i]? = some false := by
  intro l
  induction l with
  | nil => intro i h; simp [findFreeIdx] at h
  | cons b rest ih =>
      intro i h
      unfold findFreeIdx at h
      by_cases hb : b = true
      · rw [if_pos hb] at h
        cases hrest : findFreeIdx rest with
        | none => rw [hrest] at h; simp at h
        | some j =>
            rw [hrest] at h
            simp only [Option.map_some', Option.some.injEq] at h
            subst h
            simpa using ih hrest
      · rw [if_neg hb] at h
        simp only [Option.some.injEq] at h
        subst h
        simp at hb
        simp [hb]

theorem findFreeIdx_all_true : ∀ {l : List Bool},
    (∀ b ∈ l, b = true) → findFreeIdx l = none := by
  intro l
  induction l with
  | nil => intro _; rfl
  | cons b rest ih =>
      intro h
      unfold findFreeIdx
      rw [if_pos (h b (List.mem_cons_self b rest)),
          ih (fun x hx => h x (List.mem_cons_of_mem _ hx))]
      rfl

theorem getElem?_some_lt {α : Type} {l : List α} {i : Nat} {a : α}
    (h : l[i]? = some a) : i < l.length := by
  by_contra hge
  rw [List.getElem?_eq_none (Nat.le_of_not_lt hge)] at h
  exact Option.noConfusion h

theorem tryAcquire_some {s : SchedState} {now i : Nat} {s' : SchedState}
    {acts : List PageAction} (h : tryAcquire s now = some (i, s', acts)) :
    s.shuttingDown = false ∧ s.busy[i]? = some false ∧
    s' = { s with busy := s.busy.set i true,
                  lastActivated := s.lastActivated.set i now } ∧
    acts = [PageAction.bringToFront i] := by
  unfold tryAcquire at h
  split at h
  · exact absurd h (by simp)
  · rename_i hsd
    simp only [Bool.not_eq_true] at hsd
    cases hf : findFreeIdx s.busy with
    | none => rw [hf] at h; exact absurd h (by simp)
    | some j =>
        rw [hf] at h
        simp only [Option.some.injEq, Prod.mk.injEq] at h
        obtain ⟨hj, hs', hacts⟩ := h
        subst hj
        exact ⟨hsd, findFreeIdx_some hf, hs'.symm, hacts.symm⟩

theorem rotate_busy_eq (s : SchedState) (now : Nat) :
    (rotateActivePage s now).1.busy = s.busy ∧
    (rotateActivePage s now).1.shuttingDown = s.shuttingDown := by
  by_cases h : s.shuttingDown = true <;> simp [rotateActivePage, h]

theorem rotate_no_bringToFront (s : SchedState) (now : Nat) (i : Nat) :
    PageAction.bringToFront i ∉ (rotateActivePage s now).2 := by
  by_cases h : s.shuttingDown = true <;> simp [rotateActivePage, h]

theorem poolInv_init (n : Nat) : PoolInv n (initPool n) := by
  refine ⟨by simp [initPool], by simp [initPool], by simp [initPool], ?_⟩
  simp [initPool, List.count_replicate]

theorem poolInv_step {n : Nat} {sys : PoolSys} {e : PoolEvent}
    (h : PoolInv n sys) : PoolInv n (poolStep sys e) := by
  obtain ⟨hlen, hnd, hheld, hcount⟩ := h
  cases e with
  | acquire now =>
      simp only [poolStep]
      cases ha : tryAcquire sys.sched now with
      | none => exact ⟨hlen, hnd, hheld, hcount⟩
      | some res =>
          obtain ⟨i, s', acts⟩ := res
          obtain ⟨-, hfree, hs', -⟩ := tryAcquire_some ha
          have hi : i < sys.sched.busy.length := getElem?_some_lt hfree
          have hnotin : i ∉ sys.holders := by
            intro hin
            rw [hheld i hin] at hfree
            exact Bool.noConfusion (Option.some.inj hfree)
          subst hs'
          have hgi : sys.sched.busy[i] = false := by
            have hg := List.getElem?_eq_getElem hi
            rw [hg] at hfree
            exact Option.some.inj hfree
          refine ⟨by simpa using hlen, List.nodup_cons.mpr ⟨hnotin, hnd⟩, ?_, ?_⟩
          · intro j hj
            rcases List.mem_cons.mp hj with hji | hjmem
            · subst hji
              simp [List.getElem?_set_eq_of_lt _ hi]
            · have hne : i ≠ j := fun hij => hnotin (hij ▸ hjmem)
              simpa [List.getElem?_set_ne hne] using hheld j hjmem
          · have hcs := List.count_set true true sys.sched.busy i hi
            simp only [hgi, beq_self_eq_true, if_true] at hcs
            simp only [List.length_cons]
            simp at hcs
            omega
  | release i =>
      simp only [poolStep]
      split
      · rename_i hin
        have hib : sys.sched.busy[i]? = some true := hheld i hin
        have hi : i < sys.sched.busy.length := getElem?_some_lt hib
        have hgi : sys.sched.busy[i] = true := by
          have hg := List.getElem?_eq_getElem hi
          rw [hg] at hib
          exact Option.some.inj hib
        refine ⟨by simp [releaseSlot, hlen], hnd.erase i, ?_, ?_⟩
        · intro j hj
          obtain ⟨hne, hjmem⟩ := (hnd.mem_erase_iff).mp hj
          simp only [releaseSlot]
          rw [List.getElem?_set_ne (Ne.symm hne)]
          exact hheld j hjmem
        · have hcs := List.count_set false true sys.sched.busy i hi
          simp only [hgi] at hcs
          simp at hcs
          have hle := List.length_erase_add_one hin
          simp only [releaseSlot]
          omega
      · exact ⟨hlen, hnd, hheld, hcount⟩
  | rotate now =>
      obtain ⟨hb, -⟩ := rotate_busy_eq sys.sched now
      exact ⟨by simpa [poolStep, hb] using hlen, hnd,
             by simpa [poolStep, hb] using hheld,
             by simpa [poolStep, hb] using hcount⟩
  | shutdown => exact ⟨hlen, hnd, hheld, hcount⟩

theorem poolInv_run (n : Nat) (es : List PoolEvent) : PoolInv n (runPool n es) := by
  unfold runPool
  have hfold : ∀ (l : List PoolEvent) (sys : PoolSys), PoolInv n sys →
      PoolInv n (l.foldl poolStep sys) := by
    intro l
    induction l with
    | nil => intro sys h; exact h
    | cons e rest ih => intro sys h; exact ih _ (poolInv_step h)
  exact hfold es (initPool n) (poolInv_init n)

/-- C1: over every pool of N pages and every interleaving of acquire, release,
rotation and shutdown events, the held slot indices are pairwise distinct (a
page handle is held by at most one in-flight acquisition) and at most N slots
are held concurrently; a successful `acquirePage` scan grants only a slot
whose busy flag is `false` and sets it to `true` before returning; with every
slot busy the scan grants nothing (the caller keeps waiting); the `release`
callback is what clears a busy flag, and no event other than a `release`
ever clears one. -/
theorem claim_C1 (n : Nat) (es : List PoolEvent) :
    ((runPool n es).holders.Nodup ∧
     (runPool n es).holders.length ≤ n ∧
     (∀ i ∈ (runPool n es).holders, (runPool n es).sched.busy[i]? = some true)) ∧
    (∀ (s : SchedState) (now i : Nat) (s' : SchedState) (acts : List PageAction),
        tryAcquire s now = some (i, s', acts) →
        s.busy[i]? = some false ∧ s'.busy[i]? = some true) ∧
    (∀ (s : SchedState) (now : Nat), (∀ b ∈ s.busy, b = true) → tryAcquire s now = none) ∧
    (∀ (s : SchedState) (i : Nat), (releaseSlot s i).busy = s.busy.set i false) ∧
    (∀ (sys : PoolSys) (e : PoolEvent), (∃ i, e = PoolEvent.release i) ∨
        ∀ i : Nat, sys.sched.busy[i]? = some true →
          (poolStep sys e).sched.busy[i]? = some true) := by
  obtain ⟨hlen, hnd, hheld, hcount⟩ := poolInv_run n es
  refine ⟨⟨hnd, ?_, hheld⟩, ?_, ?_, ?_, ?_⟩
  · calc (runPool n es).holders.length
        = (runPool n es).sched.busy.count true := hcount.symm
      _ ≤ (runPool n es).sched.busy.length := List.count_le_length true _
      _ = n := hlen
  · intro s now i s' acts h
    obtain ⟨-, hfree, hs', -⟩ := tryAcquire_some h
    have hi : i < s.busy.length := getElem?_some_lt hfree
    subst hs'
    exact ⟨hfree, by simpa using List.getElem?_set_eq_of_lt true hi⟩
  · intro s now hall
    unfold tryAcquire
    split
    · rfl
    · rw [findFreeIdx_all_true hall]
  · intro s i; rfl
  · intro sys e
    cases e with
    | acquire now =>
        right
        intro i hbusy
        simp only [poolStep]
        cases ha : tryAcquire sys.sched now with
        | none => exact hbusy
        | some res =>
            obtain ⟨j, s', acts⟩ := res
            obtain ⟨-, hfree, hs', -⟩ := tryAcquire_some ha
            subst hs'
            by_cases hij : j = i
            · subst hij
              rw [hbusy] at hfree
              exact Bool.noConfusion (Option.some.inj hfree)
            · simpa [List.getElem?_set_ne hij] using hbusy
    | release i => exact Or.inl ⟨i, rfl⟩
    | rotate now =>
        right
        intro i hbusy
        obtain ⟨hb, -⟩ := rotate_busy_eq sys.sched now
        simpa [poolStep, hb] using hbusy
    | shutdown => exact Or.inr fun i hbusy => hbusy

/-- Witness for C1 at the concrete pool of 2 pages after one acquisition:
slot 0 is granted and busy, the holder list is duplicate-free and within the
bound. -/
theorem claim_C1_witness :
    (runPool 2 [PoolEvent.acquire 1]).holders.Nodup ∧
    (runPool 2 [PoolEvent.acquire 1]).holders.length ≤ 2 ∧
    (runPool 2 [PoolEvent.acquire 1]).sched.busy[0]? = some true := by
  refine ⟨(claim_C1 2 [PoolEvent.acquire 1]).1.1,
          (claim_C1 2 [PoolEvent.acquire 1]).1.2.1,
          (claim_C1 2 [PoolEvent.acquire 1]).1.2.2 0 (by decide)⟩

/-- C6: a rotation tick never emits `bringToFront` for any slot; it leaves the
busy flags and the shutdown flag untouched (it only moves the cursor, stamps
`lastActivated` and optionally moves the mouse); once the shutdown flag is
set the tick is a complete no-op (state unchanged, no page interaction); and
every successful acquisition does emit `bringToFront` for the granted slot. -/
theorem claim_C6 :
    (∀ (s : SchedState) (now i : Nat),
        PageAction.bringToFront i ∉ (rotateActivePage s now).2) ∧
    (∀ (s : SchedState) (now : Nat),
        (rotateActivePage s now).1.busy = s.busy ∧
        (rotateActivePage s now).1.shuttingDown = s.shuttingDown) ∧
    (∀ (s : SchedState) (now : Nat),
        s.shuttingDown = true → rotateActivePage s now = (s, [])) ∧
    (∀ (s : SchedState) (now i : Nat) (s' : SchedState) (acts : List PageAction),
        tryAcquire s now = some (i, s', acts) → PageAction.bringToFront i ∈ acts) := by
  refine ⟨fun s now i => rotate_no_bringToFront s now i,
          fun s now => rotate_busy_eq s now, ?_, ?_⟩
  · intro s now h
    unfold rotateActivePage
    rw [if_pos h]
  · intro s now i s' acts h
    obtain ⟨-, -, -, hacts⟩ := tryAcquire_some h
    subst hacts
    exact List.mem_singleton_self _

/-- Witness for C6: a shutdown-flagged scheduler rotates to exactly itself
with no interaction, and the concrete acquisition of slot 1 emits its
`bringToFront`. -/
theorem claim_C6_witness :
    rotateActivePage ⟨[false, true], [0, 0], 0, true⟩ 7 =
      (⟨[false, true], [0, 0], 0, true⟩, []) ∧
    PageAction.bringToFront 1 ∈ [PageAction.bringToFront 1] := by
  refine ⟨claim_C6.2.2.1 _ 7 rfl,
          claim_C6.2.2.2 ⟨[true, false], [0, 0], 0, false⟩ 5 1
            ⟨[true, true], [0, 5], 0, false⟩ [PageAction.bringToFront 1] (by decide)⟩

/-! ### Lemmas about the extractor -/

theorem pollDelay_pos (a : Nat) : 1 ≤ pollDelay a := by
  unfold pollDelay
  refine le_min ?_ (by norm_num)
  calc 1 ≤ 100 := by norm_num
    _ = 100 * 1 := by norm_num
    _ ≤ 100 * 2 ^ a := Nat.mul_le_mul_left 100 (Nat.one_le_two_pow)

theorem pollLoop_false_ge {hasResp : Nat → Bool} {extraDt : Nat → Nat}
    {maxWait : Nat} : ∀ {fuel elapsed attempt : Nat},
    maxWait ≤ fuel + elapsed →
    (pollLoop hasResp extraDt maxWait fuel elapsed attempt).1 = false →
    maxWait ≤ (pollLoop hasResp extraDt maxWait fuel elapsed attempt).2.1 := by
  intro fuel
  induction fuel with
  | zero =>
      intro elapsed attempt hfuel _
      simpa [pollLoop] using hfuel
  | succ fuel ih =>
      intro elapsed attempt hfuel hres
      unfold pollLoop at hres ⊢
      by_cases hlt : elapsed < maxWait
      · rw [if_pos hlt] at hres ⊢
        by_cases hr : hasResp attempt = true
        · rw [if_pos hr] at hres; exact absurd hres (by simp)
        · rw [if_neg hr] at hres ⊢
          refine ih ?_ hres
          have := pollDelay_pos attempt
          omega
      · rw [if_neg hlt] at hres ⊢
        simpa using Nat.le_of_not_lt hlt

theorem mem_addFile_self (p : String) (fs : List String) : p ∈ addFile p fs := by
  unfold addFile
  split
  · assumption
  · exact List.mem_cons_self p fs

theorem mem_addFile_of_mem {q : String} (p : String) {fs : List String}
    (h : q ∈ fs) : q ∈ addFile p fs := by
  unfold addFile
  split
  · exact h
  · exact List.mem_cons_of_mem p h

theorem addFile_nodup {p : String} {fs : List String} (h : fs.Nodup) :
    (addFile p fs).Nodup := by
  unfold addFile
  split
  · exact h
  · exact List.nodup_cons.mpr ⟨by assumption, h⟩

theorem rmFile_nodup {p : String} {fs : List String} (h : fs.Nodup) :
    (rmFile p fs).Nodup :=
  h.erase p

theorem not_mem_rmFile_self {p : String} {fs : List String} (h : fs.Nodup) :
    p ∉ rmFile p fs := by
  intro hmem
  exact absurd (h.mem_erase_iff.mp hmem).1 (by simp)

theorem not_mem_rmFile_of_not_mem {p q : String} {fs : List String}
    (h : q ∉ fs) : q ∉ rmFile p fs :=
  fun hmem => h (List.mem_of_mem_erase hmem)

theorem mem_rmFile_of_ne {p q : String} {fs : List String}
    (hne : q ≠ p) (h : q ∈ fs) : q ∈ rmFile p fs :=
  (List.mem_erase_of_ne hne).mpr h

theorem jpg_ne_png (outputDir imageId : String) (mode : ViewportMode) :
    jpgPathOf outputDir imageId mode ≠ pngPathOf outputDir imageId mode := by
  intro h
  unfold jpgPathOf pngPathOf at h
  have hd := congrArg String.data h
  simp only [String.data_append] at hd
  have := List.append_cancel_left hd
  have hjp : (".jpg" : String).data ≠ (".png" : String).data := by decide
  exact hjp this

theorem extractBody_ok_path (cfg : SmartframeConfig) (env : ExtractEnv)
    (imageId outputDir : String) (mode : ViewportMode) (md : Option ImageMetadata)
    (fs0 : List String) {p : String}
    (h : (extractBody cfg env imageId outputDir mode md fs0).1 = Except.ok p) :
    p = jpgPathOf outputDir imageId mode := by
  unfold extractBody extractTail at h
  repeat' split at h
  all_goals simp_all

/-- C2: for every environment (page behaviour, filesystem behaviour, timings)
and every input, `extractCanvasImage` either returns `null` — and then the
body raised some failure that the outermost catch absorbed — or returns the
final JPEG path `outputDir/{sanitizedImageId}_canvas_{mode}.jpg`; it never
propagates an exception. -/
theorem claim_C2 (cfg : SmartframeConfig) (env : ExtractEnv) (imageId outputDir : String)
    (mode : ViewportMode) (md : Option ImageMetadata) (fs0 : List String) :
    ((extractCanvasImage cfg env imageId outputDir mode md fs0).1 = none ∧
      ∃ e, (extractBody cfg env imageId outputDir mode md fs0).1 = Except.error e) ∨
    ((extractCanvasImage cfg env imageId outputDir mode md fs0).1 =
        some (jpgPathOf outputDir imageId mode) ∧
      (extractBody cfg env imageId outputDir mode md fs0).1 =
        Except.ok (jpgPathOf outputDir imageId mode)) := by
  rcases hbody : extractBody cfg env imageId outputDir mode md fs0 with ⟨r, fsF⟩
  cases r with
  | error e =>
      left
      refine ⟨?_, e, rfl⟩
      unfold extractCanvasImage
      rw [hbody]
  | ok p =>
      right
      have hp : p = jpgPathOf outputDir imageId mode :=
        extractBody_ok_path cfg env imageId outputDir mode md fs0 (by rw [hbody])
      subst hp
      refine ⟨?_, rfl⟩
      unfold extractCanvasImage
      rw [hbody]

/-- C3: with the capture signal present, a non-empty `data-error` attribute
raises `CanvasExtensionError` carrying exactly that error text — whatever the
`data-url` attribute holds (error wins the tie-break) — with no file written
(the filesystem is returned unchanged), and `extractCanvasImage` consequently
returns `null`; and with no (truthy) error attribute, a `data-url` that is
absent or lacks the `data:image/png;base64,` prefix raises
`CanvasExtensionError` with the descriptive message, again writing nothing. -/
theorem claim_C3 (cfg : SmartframeConfig) (env : ExtractEnv) (imageId outputDir : String)
    (mode : ViewportMode) (md : Option ImageMetadata) (fs0 : List String)
    (hb : env.bringToFrontErr = none)
    (hr : (pollResult cfg env).1 = true) :
    (∀ e : String, env.dataErrorAttr = some e → e ≠ "" →
      extractBody cfg env imageId outputDir mode md fs0 =
        (Except.error (ExtractErr.extensionErr imageId e
            ((pollResult cfg env).2.1 + env.postReadDt)), fs0) ∧
      (extractCanvasImage cfg env imageId outputDir mode md fs0).1 = none ∧
      (extractCanvasImage cfg env imageId outputDir mode md fs0).2 = fs0) ∧
    (truthyStr env.dataErrorAttr = none → dataUrlValid env.dataUrlAttr = false →
      extractBody cfg env imageId outputDir mode md fs0 =
        (Except.error (ExtractErr.extensionErr imageId "No valid canvas data URL received"
            ((pollResult cfg env).2.1 + env.postReadDt)), fs0) ∧
      (extractCanvasImage cfg env imageId outputDir mode md fs0).1 = none ∧
      (extractCanvasImage cfg env imageId outputDir mode md fs0).2 = fs0) := by
  constructor
  · intro e he hne
    have htr : truthyStr env.dataErrorAttr = some e := by
      rw [he]; simp [truthyStr, hne]
    have hbody : extractBody cfg env imageId outputDir mode md fs0 =
        (Except.error (ExtractErr.extensionErr imageId e
            ((pollResult cfg env).2.1 + env.postReadDt)), fs0) := by
      unfold extractBody
      rw [hb, hr]
      unfold extractTail
      rw [htr]
      exact rfl
    refine ⟨hbody, ?_, ?_⟩ <;> (unfold extractCanvasImage; rw [hbody])
  · intro htr hurl
    have hbody : extractBody cfg env imageId outputDir mode md fs0 =
        (Except.error (ExtractErr.extensionErr imageId "No valid canvas data URL received"
            ((pollResult cfg env).2.1 + env.postReadDt)), fs0) := by
      unfold extractBody
      rw [hb, hr]
      unfold extractTail
      rw [htr, hurl]
      exact rfl
    refine ⟨hbody, ?_, ?_⟩ <;> (unfold extractCanvasImage; rw [hbody])

/-- Witness for C3: a first-poll signal with `data-error="render failed"` and
a well-formed `data-url` still fails with exactly that error text and leaves
the (empty) disk untouched. -/
theorem claim_C3_witness :
    extractBody cfgDefault envSignalErr "img1" "out" ViewportMode.thumbnail none [] =
      (Except.error (ExtractErr.extensionErr "img1" "render failed" 0), []) ∧
    (extractCanvasImage cfgDefault envSignalErr "img1" "out" ViewportMode.thumbnail none []).1 =
      none := by
  have h := (claim_C3 cfgDefault envSignalErr "img1" "out" ViewportMode.thumbnail none []
      rfl rfl).1 "render failed" rfl (by decide)
  exact ⟨h.1, h.2.1⟩

/-- C4: if the polling loop exits without a signal, the body raises
`CanvasTimeoutError` carrying an elapsed time that is at least the configured
`maxWaitMs`, the configured `maxWaitMs` itself, and — per the one extra
re-read of the error attribute — that attribute's text when it is present and
non-empty, `null` otherwise (`truthyStr` is exactly that tie-break). -/
theorem claim_C4 (cfg : SmartframeConfig) (env : ExtractEnv) (imageId outputDir : String)
    (mode : ViewportMode) (md : Option ImageMetadata) (fs0 : List String)
    (hb : env.bringToFrontErr = none)
    (hr : (pollResult cfg env).1 = false) :
    extractBody cfg env imageId outputDir mode md fs0 =
      (Except.error (ExtractErr.timeout imageId
          ((pollResult cfg env).2.1 + env.postLoopDt) (effMaxWait cfg)
          (truthyStr env.timeoutErrorAttr)), fs0) ∧
    effMaxWait cfg ≤ (pollResult cfg env).2.1 + env.postLoopDt ∧
    (extractCanvasImage cfg env imageId outputDir mode md fs0).1 = none ∧
    (∀ s : String, s ≠ "" → truthyStr (some s) = some s) ∧
    truthyStr none = none := by
  have hbody : extractBody cfg env imageId outputDir mode md fs0 =
      (Except.error (ExtractErr.timeout imageId
          ((pollResult cfg env).2.1 + env.postLoopDt) (effMaxWait cfg)
          (truthyStr env.timeoutErrorAttr)), fs0) := by
    unfold extractBody
    rw [hb, hr]
    simp
  refine ⟨hbody, ?_, ?_, ?_, rfl⟩
  · have hge : effMaxWait cfg ≤ (pollResult cfg env).2.1 := by
      unfold pollResult at hr ⊢
      exact pollLoop_false_ge (Nat.le_add_right _ _) hr
    omega
  · unfold extractCanvasImage
    rw [hbody]
  · intro s hs
    simp [truthyStr, hs]

/-- Witness for C4: with `maxRenderWaitMs = 200` and a signal that never
appears, the body raises `CanvasTimeoutError` with elapsed 300 ≥ 200 and no
last-known error. -/
theorem claim_C4_witness :
    extractBody cfgShortWait envNoSignal "img1" "out" ViewportMode.thumbnail none [] =
      (Except.error (ExtractErr.timeout "img1" 300 200 none), []) ∧
    (200 : Nat) ≤ 300 := by
  have h := claim_C4 cfgShortWait envNoSignal "img1" "out" ViewportMode.thumbnail none []
      rfl (by decide)
  refine ⟨?_, by norm_num⟩
  have h1 := h.1
  rwa [show (pollResult cfgShortWait envNoSignal).2.1 = 300 from by decide,
       show effMaxWait cfgShortWait = 200 from by decide,
       show truthyStr envNoSignal.timeoutErrorAttr = none from rfl] at h1

theorem embedExif_always_ok (o : SpawnOutcome) : embedExifResolution o = Except.ok () := by
  cases o with
  | exited code => simp [embedExifResolution]
  | spawnError m => rfl

/-- C5: when extraction reaches validation (signal present, no extension
error, valid payload, PNG written, transcode succeeded), a final file below
the configured minimum byte size — or, size passing, a width or height below
the configured minimum pixel dimension — leaves the final JPG absent from
disk, raises `CanvasExtensionError` whose message names the violated
threshold and the measured value, and makes `extractCanvasImage` return
`null`. -/
theorem claim_C5 (cfg : SmartframeConfig) (env : ExtractEnv) (imageId outputDir : String)
    (mode : ViewportMode) (md : Option ImageMetadata) (fs0 : List String)
    (hb : env.bringToFrontErr = none)
    (hr : (pollResult cfg env).1 = true)
    (he : truthyStr env.dataErrorAttr = none)
    (hu : dataUrlValid env.dataUrlAttr = true)
    (hw : env.writePngErr = none)
    (ht : env.transcodeErr = none)
    (hnd : fs0.Nodup) :
    (env.fileSize < orDefault cfg.minValidFileSize 51200 →
      (extractCanvasImage cfg env imageId outputDir mode md fs0).1 = none ∧
      jpgPathOf outputDir imageId mode ∉
        (extractCanvasImage cfg env imageId outputDir mode md fs0).2 ∧
      (extractBody cfg env imageId outputDir mode md fs0).1 =
        Except.error (ExtractErr.extensionErr imageId
          ("File validation failed: size " ++ toString env.fileSize ++
           " bytes is below minimum " ++
           toString (orDefault cfg.minValidFileSize 51200) ++ " bytes")
          ((pollResult cfg env).2.1 + env.postReadDt + env.sizeCheckDt))) ∧
    (¬ env.fileSize < orDefault cfg.minValidFileSize 51200 →
     (env.imgWidth.getD 0 < orDefault cfg.minValidDimensions 500 ∨
      env.imgHeight.getD 0 < orDefault cfg.minValidDimensions 500) →
      (extractCanvasImage cfg env imageId outputDir mode md fs0).1 = none ∧
      jpgPathOf outputDir imageId mode ∉
        (extractCanvasImage cfg env imageId outputDir mode md fs0).2 ∧
      (extractBody cfg env imageId outputDir mode md fs0).1 =
        Except.error (ExtractErr.extensionErr imageId
          ("File validation failed: dimensions " ++ toString (env.imgWidth.getD 0) ++
           "x" ++ toString (env.imgHeight.getD 0) ++ " are below minimum " ++
           toString (orDefault cfg.minValidDimensions 500) ++ "px")
          ((pollResult cfg env).2.1 + env.postReadDt + env.sizeCheckDt + env.dimCheckDt))) := by
  have hnotjpg : jpgPathOf outputDir imageId mode ∉
      rmFile (jpgPathOf outputDir imageId mode)
        (rmFile (pngPathOf outputDir imageId mode)
          (addFile (jpgPathOf outputDir imageId mode)
            (addFile (pngPathOf outputDir imageId mode) fs0))) :=
    not_mem_rmFile_self (rmFile_nodup (addFile_nodup (addFile_nodup hnd)))
  constructor
  · intro hsize
    have hbody : extractBody cfg env imageId outputDir mode md fs0 =
        (Except.error (ExtractErr.extensionErr imageId
            ("File validation failed: size " ++ toString env.fileSize ++
             " bytes is below minimum " ++
             toString (orDefault cfg.minValidFileSize 51200) ++ " bytes")
            ((pollResult cfg env).2.1 + env.postReadDt + env.sizeCheckDt)),
         rmFile (jpgPathOf outputDir imageId mode)
           (rmFile (pngPathOf outputDir imageId mode)
             (addFile (jpgPathOf outputDir imageId mode)
               (addFile (pngPathOf outputDir imageId mode) fs0)))) := by
      unfold extractBody
      rw [hb, hr]
      unfold extractTail
      rw [he, hu, hw, ht, if_pos hsize]
      exact rfl
    refine ⟨?_, ?_, ?_⟩
    · unfold extractCanvasImage; rw [hbody]
    · unfold extractCanvasImage; rw [hbody]; exact hnotjpg
    · rw [hbody]
  · intro hsize hdim
    have hbody : extractBody cfg env imageId outputDir mode md fs0 =
        (Except.error (ExtractErr.extensionErr imageId
            ("File validation failed: dimensions " ++ toString (env.imgWidth.getD 0) ++
             "x" ++ toString (env.imgHeight.getD 0) ++ " are below minimum " ++
             toString (orDefault cfg.minValidDimensions 500) ++ "px")
            ((pollResult cfg env).2.1 + env.postReadDt + env.sizeCheckDt + env.dimCheckDt)),
         rmFile (jpgPathOf outputDir imageId mode)
           (rmFile (pngPathOf outputDir imageId mode)
             (addFile (jpgPathOf outputDir imageId mode)
               (addFile (pngPathOf outputDir imageId mode) fs0)))) := by
      unfold extractBody
      rw [hb, hr]
      unfold extractTail
      rw [he, hu, hw, ht, if_neg hsize, if_pos hdim]
      exact rfl
    refine ⟨?_, ?_, ?_⟩
    · unfold extractCanvasImage; rw [hbody]
    · unfold extractCanvasImage; rw [hbody]; exact hnotjpg
    · rw [hbody]

/-- Witness for C5: a validated-pipeline run whose JPG is 10 bytes (below the
default 51200 minimum) yields `null` and no JPG on disk. -/
theorem claim_C5_witness :
    (extractCanvasImage cfgDefault envSmallFile "img1" "out" ViewportMode.full none []).1 =
      none ∧
    jpgPathOf "out" "img1" ViewportMode.full ∉
      (extractCanvasImage cfgDefault envSmallFile "img1" "out" ViewportMode.full none []).2 := by
  have h := (claim_C5 cfgDefault envSmallFile "img1" "out" ViewportMode.full none []
      rfl rfl rfl (by decide) rfl rfl (by decide)).1 (by decide)
  exact ⟨h.1, h.2.1⟩

/-- C9: the `exiftool` promise resolves for every subprocess outcome — exit
code 0, non-zero exit, or spawn error — so a metadata-embedding failure is
never propagated: a run that reaches the metadata step with a validated file
still returns the final JPG path and keeps the artifact on disk. -/
theorem claim_C9 (cfg : SmartframeConfig) (env : ExtractEnv) (imageId outputDir : String)
    (mode : ViewportMode) (md0 : ImageMetadata) (fs0 : List String)
    (hb : env.bringToFrontErr = none)
    (hr : (pollResult cfg env).1 = true)
    (he : truthyStr env.dataErrorAttr = none)
    (hu : dataUrlValid env.dataUrlAttr = true)
    (hw : env.writePngErr = none)
    (ht : env.transcodeErr = none)
    (hsize : ¬ env.fileSize < orDefault cfg.minValidFileSize 51200)
    (hdim : ¬ (env.imgWidth.getD 0 < orDefault cfg.minValidDimensions 500 ∨
               env.imgHeight.getD 0 < orDefault cfg.minValidDimensions 500)) :
    (∀ o : SpawnOutcome, embedExifResolution o = Except.ok ()) ∧
    (extractCanvasImage cfg env imageId outputDir mode (some md0) fs0).1 =
      some (jpgPathOf outputDir imageId mode) ∧
    jpgPathOf outputDir imageId mode ∈
      (extractCanvasImage cfg env imageId outputDir mode (some md0) fs0).2 := by
  have hbody : extractBody cfg env imageId outputDir mode (some md0) fs0 =
      (Except.ok (jpgPathOf outputDir imageId mode),
       rmFile (pngPathOf outputDir imageId mode)
         (addFile (jpgPathOf outputDir imageId mode)
           (addFile (pngPathOf outputDir imageId mode) fs0))) := by
    unfold extractBody
    rw [hb, hr]
    unfold extractTail
    rw [he, hu, hw, ht, if_neg hsize, if_neg hdim, embedExif_always_ok]
    exact rfl
  refine ⟨embedExif_always_ok, ?_, ?_⟩
  · unfold extractCanvasImage; rw [hbody]
  · unfold extractCanvasImage; rw [hbody]
    exact mem_rmFile_of_ne (jpg_ne_png outputDir imageId mode)
      (mem_addFile_self _ _)

/-- Witness for C9: the happy-path run whose `exiftool` exits with code 1
still returns the JPG path, which is on disk. -/
theorem claim_C9_witness :
    (extractCanvasImage cfgDefault envHappy "img1" "out" ViewportMode.full
        (some mdSample) []).1 = some (jpgPathOf "out" "img1" ViewportMode.full) ∧
    embedExifResolution (SpawnOutcome.exited 1) = Except.ok () := by
  have h := claim_C9 cfgDefault envHappy "img1" "out" ViewportMode.full mdSample []
      rfl rfl rfl (by decide) rfl rfl (by decide) (by decide)
  exact ⟨h.2.1, h.1 (SpawnOutcome.exited 1)⟩

/-- C10: with the PNG written, a failing transcode makes `extractCanvasImage`
return `null` while the intermediate PNG stays on disk (the raised failure is
the transcode rejection itself); and when the transcode succeeds the PNG is
deleted — deletion happens only after a successful transcode, on every
surviving branch. -/
theorem claim_C10 (cfg : SmartframeConfig) (env : ExtractEnv) (imageId outputDir : String)
    (mode : ViewportMode) (md : Option ImageMetadata) (fs0 : List String)
    (hb : env.bringToFrontErr = none)
    (hr : (pollResult cfg env).1 = true)
    (he : truthyStr env.dataErrorAttr = none)
    (hu : dataUrlValid env.dataUrlAttr = true)
    (hw : env.writePngErr = none)
    (hnd : fs0.Nodup) :
    (∀ m : String, env.transcodeErr = some m →
      (extractCanvasImage cfg env imageId outputDir mode md fs0).1 = none ∧
      pngPathOf outputDir imageId mode ∈
        (extractCanvasImage cfg env imageId outputDir mode md fs0).2 ∧
      (extractBody cfg env imageId outputDir mode md fs0).1 =
        Except.error (ExtractErr.js m)) ∧
    (env.transcodeErr = none →
      pngPathOf outputDir imageId mode ∉
        (extractCanvasImage cfg env imageId outputDir mode md fs0).2) := by
  constructor
  · intro m ht
    have hbody : extractBody cfg env imageId outputDir mode md fs0 =
        (Except.error (ExtractErr.js m),
         addFile (pngPathOf outputDir imageId mode) fs0) := by
      unfold extractBody
      rw [hb, hr]
      unfold extractTail
      rw [he, hu, hw, ht]
      exact rfl
    refine ⟨?_, ?_, ?_⟩
    · unfold extractCanvasImage; rw [hbody]
    · unfold extractCanvasImage; rw [hbody]; exact mem_addFile_self _ _
    · rw [hbody]
  · intro ht
    have hnotpng : pngPathOf outputDir imageId mode ∉
        rmFile (pngPathOf outputDir imageId mode)
          (addFile (jpgPathOf outputDir imageId mode)
            (addFile (pngPathOf outputDir imageId mode) fs0)) :=
      not_mem_rmFile_self (addFile_nodup (addFile_nodup hnd))
    by_cases hsize : env.fileSize < orDefault cfg.minValidFileSize 51200
    · have hbody : extractBody cfg env imageId outputDir mode md fs0 =
          (Except.error (ExtractErr.extensionErr imageId
              ("File validation failed: size " ++ toString env.fileSize ++
               " bytes is below minimum " ++
               toString (orDefault cfg.minValidFileSize 51200) ++ " bytes")
              ((pollResult cfg env).2.1 + env.postReadDt + env.sizeCheckDt)),
           rmFile (jpgPathOf outputDir imageId mode)
             (rmFile (pngPathOf outputDir imageId mode)
               (addFile (jpgPathOf outputDir imageId mode)
                 (addFile (pngPathOf outputDir imageId mode) fs0)))) := by
        unfold extractBody
        rw [hb, hr]
        unfold extractTail
        rw [he, hu, hw, ht, if_pos hsize]
        exact rfl
      unfold extractCanvasImage
      rw [hbody]
      exact not_mem_rmFile_of_not_mem hnotpng
    · by_cases hdim : env.imgWidth.getD 0 < orDefault cfg.minValidDimensions 500 ∨
          env.imgHeight.getD 0 < orDefault cfg.minValidDimensions 500
      · have hbody : extractBody cfg env imageId outputDir mode md fs0 =
            (Except.error (ExtractErr.extensionErr imageId
                ("File validation failed: dimensions " ++ toString (env.imgWidth.getD 0) ++
                 "x" ++ toString (env.imgHeight.getD 0) ++ " are below minimum " ++
                 toString (orDefault cfg.minValidDimensions 500) ++ "px")
                ((pollResult cfg env).2.1 + env.postReadDt + env.sizeCheckDt + env.dimCheckDt)),
             rmFile (jpgPathOf outputDir imageId mode)
               (rmFile (pngPathOf outputDir imageId mode)
                 (addFile (jpgPathOf outputDir imageId mode)
                   (addFile (pngPathOf outputDir imageId mode) fs0)))) := by
          unfold extractBody
          rw [hb, hr]
          unfold extractTail
          rw [he, hu, hw, ht, if_neg hsize, if_pos hdim]
          exact rfl
        unfold extractCanvasImage
        rw [hbody]
        exact not_mem_rmFile_of_not_mem hnotpng
      · cases md with
        | none =>
            have hbody : extractBody cfg env imageId outputDir mode none fs0 =
                (Except.ok (jpgPathOf outputDir imageId mode),
                 rmFile (pngPathOf outputDir imageId mode)
                   (addFile (jpgPathOf outputDir imageId mode)
                     (addFile (pngPathOf outputDir imageId mode) fs0))) := by
              unfold extractBody
              rw [hb, hr]
              unfold extractTail
              rw [he, hu, hw, ht, if_neg hsize, if_neg hdim]
              exact rfl
            unfold extractCanvasImage
            rw [hbody]
            exact hnotpng
        | some md0 =>
            have hbody : extractBody cfg env imageId outputDir mode (some md0) fs0 =
                (Except.ok (jpgPathOf outputDir imageId mode),
                 rmFile (pngPathOf outputDir imageId mode)
                   (addFile (jpgPathOf outputDir imageId mode)
                     (addFile (pngPathOf outputDir imageId mode) fs0))) := by
              unfold extractBody
              rw [hb, hr]
              unfold extractTail
              rw [he, hu, hw, ht, if_neg hsize, if_neg hdim, embedExif_always_ok]
              exact rfl
            unfold extractCanvasImage
            rw [hbody]
            exact hnotpng

/-- Witness for C10: the run whose `sharp` transcode rejects returns `null`
with the intermediate PNG still on disk. -/
theorem claim_C10_witness :
    (extractCanvasImage cfgDefault envTranscodeFail "img1" "out" ViewportMode.full none []).1 =
      none ∧
    pngPathOf "out" "img1" ViewportMode.full ∈
      (extractCanvasImage cfgDefault envTranscodeFail "img1" "out" ViewportMode.full none []).2 := by
  have h := (claim_C10 cfgDefault envTranscodeFail "img1" "out" ViewportMode.full none []
      rfl rfl rfl (by decide) rfl (by decide)).1 "sharp failed" rfl
  exact ⟨h.1, h.2.1⟩

/-- C7 counterexample: for the tags value `"a, b ,b,"` the token list is
`[a, b, b]` and the keyword tag for `b` is appended twice, not once — the
claim that each of the two distinct keywords is "added once" is false on the
code. -/
theorem claim_C7_counterexample :
    tagTokens "a, b ,b," = ["a", "b", "b"] ∧
    (buildExiftoolArgs (mdTagsOnly "a, b ,b,") "out.jpg").count "-IPTC:Keywords+=b" = 2 ∧
    ¬ (buildExiftoolArgs (mdTagsOnly "a, b ,b,") "out.jpg").count "-IPTC:Keywords+=b" = 1 := by
  refine ⟨by decide, by decide, by decide⟩

/-- C7 (amended): metadata embedding splits the tags string on commas into
trimmed, non-empty tokens and appends each token occurrence individually to
the keyword-list and subject-list tags, without deduplication; the tags value
`"a, b ,b,"` yields the tokens `a`, `b`, `b` — two distinct values — with `a`
appended once and `b` appended twice. -/
theorem claim_C7 :
    (∀ t p : String, buildExiftoolArgs (mdTagsOnly t) p =
        ["-overwrite_original"] ++
        (tagTokens t).flatMap
          (fun tag => ["-IPTC:Keywords+=" ++ tag, "-XMP:Subject+=" ++ tag]) ++ [p]) ∧
    (∀ p : String, buildExiftoolArgs (mdTagsOnly "a, b ,b,") p =
        ["-overwrite_original",
         "-IPTC:Keywords+=a", "-XMP:Subject+=a",
         "-IPTC:Keywords+=b", "-XMP:Subject+=b",
         "-IPTC:Keywords+=b", "-XMP:Subject+=b", p]) ∧
    tagTokens "a, b ,b," = ["a", "b", "b"] := by
  have hgen : ∀ t p : String, buildExiftoolArgs (mdTagsOnly t) p =
      ["-overwrite_original"] ++
      (tagTokens t).flatMap
        (fun tag => ["-IPTC:Keywords+=" ++ tag, "-XMP:Subject+=" ++ tag]) ++ [p] := by
    intro t p
    by_cases ht : t = ""
    · subst ht; rfl
    · have hbe : (t == "") = false := beq_eq_false_iff_ne.mpr ht
      simp only [buildExiftoolArgs, mdTagsOnly, hbe]
      cases htk : tagTokens t with
      | nil => simp [htk]
      | cons a l => simp [htk]
  refine ⟨hgen, ?_, by decide⟩
  intro p
  rw [hgen]
  rw [show tagTokens "a, b ,b," = ["a", "b", "b"] from by decide]
  rfl

/-- C8: for every `dateTaken` string matched by the ISO-like pattern, the two
primary EXIF date tags receive the purely textual `YYYY:MM:DD HH:MM:SS`
reformatting of the captured groups (missing time components default to 00;
no time-zone input exists anywhere in the computation), while
`XMP:DateCreated` receives the original string verbatim; an unmatched string
contributes no date argument at all without failing the embedding; and
`"2016-07-18T14:30:00"` reformats to `"2016:07:18 14:30:00"`. -/
theorem claim_C8 :
    (∀ (s p : String) (g : DateGroups), parseIsoDate s = some g →
      buildExiftoolArgs (mdDateOnly s) p =
        ["-overwrite_original",
         "-EXIF:DateTimeOriginal=" ++ exifDateOf g,
         "-EXIF:CreateDate=" ++ exifDateOf g,
         "-XMP:DateCreated=" ++ s, p]) ∧
    (∀ s p : String, parseIsoDate s = none →
      buildExiftoolArgs (mdDateOnly s) p = ["-overwrite_original", p]) ∧
    parseIsoDate "2016-07-18T14:30:00" =
      some ⟨"2016", "07", "18", "14", "30", "00"⟩ ∧
    exifDateOf ⟨"2016", "07", "18", "14", "30", "00"⟩ = "2016:07:18 14:30:00" := by
  refine ⟨?_, ?_, by decide, by decide⟩
  · intro s p g h
    have hs : s ≠ "" := by
      intro hse
      subst hse
      rw [show parseIsoDate "" = none from rfl] at h
      exact Option.noConfusion h
    have hbe : (s == "") = false := beq_eq_false_iff_ne.mpr hs
    simp only [buildExiftoolArgs, mdDateOnly, hbe, dateArgsOf, h]
    simp
  · intro s p h
    by_cases hse : s = ""
    · subst hse; rfl
    · have hbe : (s == "") = false := beq_eq_false_iff_ne.mpr hse
      simp only [buildExiftoolArgs, mdDateOnly, hbe, dateArgsOf, h]
      simp

/-- Witness for C8: the sample date embeds with the fixed reformatting and
verbatim secondary tag, and an unparseable value contributes nothing. -/
theorem claim_C8_witness :
    buildExiftoolArgs (mdDateOnly "2016-07-18T14:30:00") "out.jpg" =
      ["-overwrite_original",
       "-EXIF:DateTimeOriginal=2016:07:18 14:30:00",
       "-EXIF:CreateDate=2016:07:18 14:30:00",
       "-XMP:DateCreated=2016-07-18T14:30:00", "out.jpg"] ∧
    buildExiftoolArgs (mdDateOnly "not a date") "out.jpg" =
      ["-overwrite_original", "out.jpg"] := by
  constructor
  · have h := claim_C8.1 "2016-07-18T14:30:00" "out.jpg"
      ⟨"2016", "07", "18", "14", "30", "00"⟩ (by decide)
    rw [h]
    rfl
  · exact claim_C8.2.1 "not a date" "out.jpg" (by decide)
